import Mathlib

/-!
Verification of the GUI Test Recorder CLI (`src/main.ts`, Deno + Playwright).

The development shallow-embeds the program's data model and operations:

* JSON values are modelled by the inductive `GTR.Json`; the platform
  primitives `JSON.stringify` / `JSON.parse` are treated as the identity
  embedding of a `Json` value into the backing file, so the state of the
  history file (`tests/history.json`) is a `GTR.FileState`: absent, present
  but unreadable, present with text that is not valid JSON, or present with
  text parsing to a given `Json` value.
* `loadHistory` / `saveHistory` follow the control flow of
  `src/main.ts:123-137` (existence check, try/catch around read+parse,
  `Array.isArray` test, unchecked cast of the array elements).
* The binary resolver `resolvePlaywright` (`src/main.ts:83-121`) is embedded
  as a pure function of a `SysEnv` that records the mode override, the
  overridable binary names, and the outcome of each `whichOk` probe; the
  embedding also returns the list of probes performed, mirroring the
  short-circuiting of the `??` chain.
* The interactive flows `recordNewTest` / `replayTest` are embedded as pure
  functions from a world (environment, file states, clock, subprocess exit
  statuses) and the scripted user inputs to a result together with the list
  of observable events (probes, prompts, subprocess spawns, joins) in
  program order.
* JavaScript numbers, as far as the replay index arithmetic needs them, are
  modelled by `JsNum` (NaN, the infinities, and finite values as rationals);
  `Math.min` / `Math.max` propagate NaN as in JS and array indexing yields
  an element only for a canonical nonnegative integer index.
-/

namespace GTR

/-- JSON values, the result type of the platform `JSON.parse`. -/
inductive Json where
  | null : Json
  | bool (b : Bool) : Json
  | num (q : ℚ) : Json
  | str (s : String) : Json
  | arr (xs : List Json) : Json
  | obj (fields : List (String × Json)) : Json

/-- The device enumeration, `type DeviceType = "pc" | "mobile"` (src/main.ts:23). -/
inductive DeviceType where
  | pc : DeviceType
  | mobile : DeviceType
deriving DecidableEq, Repr

/-- The string a `DeviceType` denotes (the TS type is a union of string literals). -/
def deviceToString : DeviceType → String
  | .pc => "pc"
  | .mobile => "mobile"

/-- `HistoryEntry` record (src/main.ts:24-32). -/
structure HistoryEntry where
  id : String
  url : String
  device : DeviceType
  createdAt : String
  feedback : String
  scriptPath : String
  tracePath : String
deriving DecidableEq, Repr

/-- `const TESTS_DIR = "tests"` (src/main.ts:34). -/
def TESTS_DIR : String := "tests"

/-- `const SESSIONS_DIR = `${TESTS_DIR}/sessions`` (src/main.ts:35). -/
def SESSIONS_DIR : String := TESTS_DIR ++ "/sessions"

/-- `const HISTORY_PATH = `${TESTS_DIR}/history.json`` (src/main.ts:36). -/
def HISTORY_PATH : String := TESTS_DIR ++ "/history.json"

/-- The JSON value a `HistoryEntry` serializes to: `JSON.stringify` writes the
object with its seven fields in declaration order (src/main.ts:215-223). -/
def encodeEntry (e : HistoryEntry) : Json :=
  .obj [("id", .str e.id), ("url", .str e.url),
        ("device", .str (deviceToString e.device)),
        ("createdAt", .str e.createdAt), ("feedback", .str e.feedback),
        ("scriptPath", .str e.scriptPath), ("tracePath", .str e.tracePath)]

/-- JS property access `o[k]` on a parsed JSON value: a field of an object,
`undefined` (`none`) otherwise. -/
def jsField : Json → String → Option Json
  | .obj fields, k => fields.lookup k
  | _, _ => none

/-- Reading a string-valued field of a parsed JSON value. -/
def jGetStr (j : Json) (k : String) : Option String :=
  match jsField j k with
  | some (.str s) => some s
  | _ => none

/-- The inverse reading of `encodeEntry`: which `HistoryEntry` (if any) a JSON
value represents, field by field.  The program itself never decodes (it casts,
src/main.ts:128); this definition only expresses "the field values are
preserved" in round-trip statements. -/
def decodeEntry (j : Json) : Option HistoryEntry :=
  match jGetStr j "id", jGetStr j "url", jGetStr j "device",
        jGetStr j "createdAt", jGetStr j "feedback",
        jGetStr j "scriptPath", jGetStr j "tracePath" with
  | some id, some url, some dev, some ca, some fb, some sp, some tp =>
      (if dev = "pc" then some DeviceType.pc
       else if dev = "mobile" then some DeviceType.mobile
       else none).map fun d => ⟨id, url, d, ca, fb, sp, tp⟩
  | _, _, _, _, _, _, _ => none

/-- State of the backing history file as `loadHistory` can observe it. -/
inductive FileState where
  | absent : FileState
  | readError : FileState
  | invalid : FileState
  | json (j : Json) : FileState

/-- The body of `loadHistory` (src/main.ts:123-132) before the `catch`:
the early return on a missing file, then the fallible read+parse, then the
`Array.isArray` branch.  `data as HistoryEntry[]` is an unchecked cast, so a
parsed array is returned with its raw `Json` elements. -/
def loadHistoryAttempt (fs : FileState) : Except String (List Json) :=
  match fs with
  | .absent => .ok []
  | .readError => .error "read failed"
  | .invalid => .error "JSON.parse: invalid JSON"
  | .json j =>
      .ok (match j with
           | .arr xs => xs
           | _ => [])

/-- `loadHistory` (src/main.ts:123-132): the `try`/`catch` maps any failure of
the body to the empty history. -/
def loadHistory (fs : FileState) : List Json :=
  match loadHistoryAttempt fs with
  | .ok xs => xs
  | .error _ => []

/-- `saveHistory` (src/main.ts:134-137): overwrite the file with the
serialization of the (runtime) array.  Directory creation and pretty-printing
are not observable at this level. -/
def saveHistory (entries : List Json) : FileState :=
  .json (.arr entries)

theorem decodeEntry_encodeEntry (e : HistoryEntry) :
    decodeEntry (encodeEntry e) = some e := by
  obtain ⟨id, url, dev, ca, fb, sp, tp⟩ := e
  cases dev <;> rfl

/-- C1: saving a well-formed history and loading it back reproduces every
entry's field values and the order of entries: reading each loaded JSON
element back as a `HistoryEntry` yields exactly the original sequence. -/
theorem load_save_roundtrip (H : List HistoryEntry) :
    (loadHistory (saveHistory (H.map encodeEntry))).map decodeEntry
      = H.map some := by
  simp [loadHistory, loadHistoryAttempt, saveHistory, List.map_map,
        Function.comp, decodeEntry_encodeEntry]

/-- C2: on a backing file that is absent, unreadable, or not valid JSON,
`loadHistory` returns the empty sequence; the `try`/`catch` converts every
failure of the body into this value, so no error reaches the caller. -/
theorem loadHistory_bad_file_empty (fs : FileState)
    (h : fs = .absent ∨ fs = .readError ∨ fs = .invalid) :
    loadHistory fs = [] := by
  rcases h with h | h | h <;> subst h <;> rfl

theorem loadHistory_bad_file_empty_w :
    loadHistory .readError = [] :=
  loadHistory_bad_file_empty .readError (Or.inr (Or.inl rfl))

/-- Whether a JSON value is an array (`Array.isArray`). -/
def Json.isArr : Json → Bool
  | .arr _ => true
  | _ => false

/-- C9: `loadHistory` performs no per-element validation: any file content
parsing to a JSON array is returned with its elements unchanged, whatever
their shape, while valid JSON that is not an array yields the empty
sequence. -/
theorem loadHistory_no_validation :
    (∀ xs : List Json, loadHistory (.json (.arr xs)) = xs) ∧
    (∀ j : Json, j.isArr = false → loadHistory (.json j) = []) := by
  constructor
  · intro xs; rfl
  · intro j hj
    cases j <;> simp_all [loadHistory, loadHistoryAttempt, Json.isArr]

theorem loadHistory_no_validation_w :
    loadHistory (.json (.arr [.num 3, .null])) = [.num 3, .null] ∧
    loadHistory (.json (.str "x")) = [] :=
  ⟨loadHistory_no_validation.1 [.num 3, .null],
   loadHistory_no_validation.2 (.str "x") rfl⟩

/-- JS numbers, as far as the replay index arithmetic observes them:
NaN, the two infinities, and finite values (as rationals). -/
inductive JsNum where
  | nan : JsNum
  | posInf : JsNum
  | negInf : JsNum
  | num (q : ℚ) : JsNum

/-- `Math.min` on two JS numbers: NaN propagates, infinities compare as
expected. -/
def jsMin : JsNum → JsNum → JsNum
  | .nan, _ => .nan
  | _, .nan => .nan
  | .negInf, _ => .negInf
  | _, .negInf => .negInf
  | .posInf, b => b
  | a, .posInf => a
  | .num x, .num y => .num (min x y)

/-- `Math.max` on two JS numbers: NaN propagates, infinities compare as
expected. -/
def jsMax : JsNum → JsNum → JsNum
  | .nan, _ => .nan
  | _, .nan => .nan
  | .posInf, _ => .posInf
  | _, .posInf => .posInf
  | .negInf, b => b
  | a, .negInf => a
  | .num x, .num y => .num (max x y)

/-- Subtracting the literal 1 from a JS number (`... - 1`). -/
def jsSub1 : JsNum → JsNum
  | .nan => .nan
  | .posInf => .posInf
  | .negInf => .negInf
  | .num q => .num (q - 1)

/-- JS array indexing `xs[i]` with a numeric index: an element is hit only
when the index is a canonical nonnegative integer below the length; any
other index (NaN, infinite, fractional, negative, too large) reads the
`undefined` property. -/
def jsIndex {α : Type} (xs : List α) : JsNum → Option α
  | .num q => if 0 ≤ q.num ∧ q.den = 1 then xs.get? q.num.toNat else none
  | _ => none

/-- The replay pick-index arithmetic (src/main.ts:255):
`Math.max(1, Math.min(entries.length, Number(pickStr))) - 1`, where the
argument `x` stands for `Number(pickStr)`. -/
def pickIndex (count : ℕ) (x : JsNum) : JsNum :=
  jsSub1 (jsMax (.num 1) (jsMin (.num (count : ℚ)) x))

/-- The replay selection `const chosen = entries[idx]` (src/main.ts:256). -/
def selectEntry {α : Type} (entries : List α) (x : JsNum) : Option α :=
  jsIndex entries (pickIndex entries.length x)

/-- C3 counterexample: with a non-empty (two-entry) history, a selection
string that is not numeric — such as "abc", whose `Number` value is NaN —
propagates NaN through the clamp formula, and the selection resolves to an
undefined entry (subsequently dereferenced, so the flow raises). -/
theorem replay_pick_nan_undefined :
    selectEntry [(1 : ℕ), 2] JsNum.nan = none := rfl

/-- C3 amended: for every non-empty history and every selection string whose
`Number` value is an integer n, the selected index is clamped into
[1, count] — n below 1 resolves to entry 1, n above count resolves to entry
count — and the selection is a defined entry.  (For a selection string whose
`Number` value is NaN or fractional, the selection can instead be
undefined.) -/
theorem replay_pick_int_clamps {α : Type} (entries : List α)
    (hne : entries ≠ []) (n : ℤ) :
    ∃ i : Fin entries.length,
      ((i : ℕ) : ℤ) = max 1 (min (entries.length : ℤ) n) - 1 ∧
      selectEntry entries (.num (n : ℚ)) = some (entries.get i) ∧
      (n ≤ 1 → (i : ℕ) = 0) ∧
      ((entries.length : ℤ) ≤ n → (i : ℕ) = entries.length - 1) := by
  have hlen : 1 ≤ (entries.length : ℤ) := by
    have := List.length_pos.mpr hne
    omega
  have hc1 : 1 ≤ max 1 (min (entries.length : ℤ) n) := le_max_left _ _
  have hcle : max 1 (min (entries.length : ℤ) n) ≤ (entries.length : ℤ) :=
    max_le hlen (min_le_left _ _)
  have hidx : (max 1 (min (entries.length : ℤ) n) - 1).toNat < entries.length := by
    omega
  refine ⟨⟨_, hidx⟩, by simp only [Fin.val_mk]; omega, ?_,
    by intro h; simp only [Fin.val_mk]; omega,
    by intro h; simp only [Fin.val_mk]; omega⟩
  have hq : pickIndex entries.length (.num (n : ℚ))
      = .num ((max 1 (min (entries.length : ℤ) n) - 1 : ℤ) : ℚ) := by
    show JsNum.num (max 1 (min ((entries.length : ℕ) : ℚ) (n : ℚ)) - 1) = _
    push_cast
    ring_nf
  simp only [selectEntry, hq, jsIndex, Rat.intCast_num, Rat.intCast_den,
    and_true, List.get?_eq_get hidx]
  rw [if_pos (by omega)]

theorem replay_pick_int_clamps_w :
    ∃ i : Fin ([(10 : ℕ), 20, 30].length),
      ((i : ℕ) : ℤ) = max 1 (min (([(10 : ℕ), 20, 30].length) : ℤ) 7) - 1 ∧
      selectEntry [(10 : ℕ), 20, 30] (.num ((7 : ℤ) : ℚ))
        = some ([(10 : ℕ), 20, 30].get i) ∧
      ((7 : ℤ) ≤ 1 → (i : ℕ) = 0) ∧
      (([(10 : ℕ), 20, 30].length : ℤ) ≤ 7 →
        (i : ℕ) = [(10 : ℕ), 20, 30].length - 1) :=
  replay_pick_int_clamps [(10 : ℕ), 20, 30] (by decide) 7

/-- The process environment and probe outcomes the resolver depends on
(src/main.ts:38-42 and the `whichOk` probes of src/main.ts:69-77):
`playwrightMode` is `Deno.env.get("PLAYWRIGHT_MODE")`; the `...BinVar`
fields are the `PLAYWRIGHT_BIN` / `NPX_BIN` / `NODE_BIN` overrides;
`globalOk` / `npxOk` record whether the `--version` probe of the direct
binary / of the npx launcher exits successfully (a spawn failure counts
as a negative probe, src/main.ts:74-76). -/
structure SysEnv where
  isWindows : Bool
  playwrightMode : Option String
  playwrightBinVar : Option String
  npxBinVar : Option String
  nodeBinVar : Option String
  globalOk : Bool
  npxOk : Bool

/-- `defaultNPX` (src/main.ts:39). -/
def defaultNPX (s : SysEnv) : String :=
  s.npxBinVar.getD (if s.isWindows then "npx.cmd" else "npx")

/-- `defaultPlaywright` (src/main.ts:40-41). -/
def defaultPlaywright (s : SysEnv) : String :=
  s.playwrightBinVar.getD (if s.isWindows then "playwright.cmd" else "playwright")

/-- `defaultNode` (src/main.ts:42). -/
def defaultNode (s : SysEnv) : String :=
  s.nodeBinVar.getD (if s.isWindows then "node.exe" else "node")

/-- The two invocation modes of `PwInvoker` (src/main.ts:79-81). -/
inductive PwMode where
  | global : PwMode
  | npx : PwMode
deriving DecidableEq, Repr

/-- `PwInvoker` (src/main.ts:79-81): the tag, the command to spawn, and the
argument-list adapter. -/
structure PwInvoker where
  mode : PwMode
  cmd : String
  wrap : List String → List String

/-- `tryGlobal` (src/main.ts:86-95): succeeds iff the `--version` probe of
the direct binary does; the adapter passes arguments through. -/
def tryGlobal (s : SysEnv) : Option PwInvoker :=
  if s.globalOk then
    some { mode := .global, cmd := defaultPlaywright s, wrap := fun a => a }
  else none

/-- `tryNpx` (src/main.ts:96-101): succeeds iff the `--version` probe of the
launcher does; the adapter prepends the package name "playwright". -/
def tryNpx (s : SysEnv) : Option PwInvoker :=
  if s.npxOk then
    some { mode := .npx, cmd := defaultNPX s, wrap := fun a => "playwright" :: a }
  else none

/-- A probe the resolver performs (a `whichOk` call on the named binary). -/
inductive Probe where
  | global (bin : String) : Probe
  | npx (bin : String) : Probe
deriving DecidableEq, Repr

/-- `resolvePlaywright` (src/main.ts:83-121) together with the ordered list
of probes it performs: the `mode === "global"` branch probes only the direct
binary, the `mode === "npx"` branch probes only the launcher, and the
auto-detect branch (`tryGlobal() ?? tryNpx() ?? throw`) probes the direct
binary first and the launcher only when that probe failed, mirroring the
short-circuiting of `??`. -/
def resolveWithLog (s : SysEnv) : Except String PwInvoker × List Probe :=
  if s.playwrightMode = some "global" then
    match tryGlobal s with
    | some g => (.ok g, [.global (defaultPlaywright s)])
    | none =>
        (.error "PLAYWRIGHT_MODE=global but `playwright` not found. Install it or set PLAYWRIGHT_BIN.",
         [.global (defaultPlaywright s)])
  else if s.playwrightMode = some "npx" then
    match tryNpx s with
    | some n => (.ok n, [.npx (defaultNPX s)])
    | none =>
        (.error "PLAYWRIGHT_MODE=npx but `npx` not found on PATH.",
         [.npx (defaultNPX s)])
  else
    match tryGlobal s with
    | some g => (.ok g, [.global (defaultPlaywright s)])
    | none =>
        match tryNpx s with
        | some n => (.ok n, [.global (defaultPlaywright s), .npx (defaultNPX s)])
        | none =>
            (.error "Could not find Playwright (global) or npx. Install Node+npx or set env vars.",
             [.global (defaultPlaywright s), .npx (defaultNPX s)])

/-- The value `resolvePlaywright` returns (src/main.ts:83-121). -/
def resolvePlaywright (s : SysEnv) : Except String PwInvoker :=
  (resolveWithLog s).1

/-- C4: with the mode override unset, the resolver probes the direct binary
first and returns its invoker when that probe succeeds (never touching the
launcher); when the direct probe fails it probes the launcher and returns the
npx invoker on success; when both probes fail it fails with the message
instructing the user to install the dependency or set an override. -/
theorem resolve_auto_order (s : SysEnv) (hm : s.playwrightMode = none) :
    (s.globalOk = true →
      resolveWithLog s =
        (.ok { mode := .global, cmd := defaultPlaywright s, wrap := fun a => a },
         [.global (defaultPlaywright s)])) ∧
    (s.globalOk = false → s.npxOk = true →
      resolveWithLog s =
        (.ok { mode := .npx, cmd := defaultNPX s, wrap := fun a => "playwright" :: a },
         [.global (defaultPlaywright s), .npx (defaultNPX s)])) ∧
    (s.globalOk = false → s.npxOk = false →
      resolveWithLog s =
        (.error "Could not find Playwright (global) or npx. Install Node+npx or set env vars.",
         [.global (defaultPlaywright s), .npx (defaultNPX s)])) := by
  refine ⟨fun hg => ?_, fun hg hn => ?_, fun hg hn => ?_⟩ <;>
    simp [resolveWithLog, tryGlobal, tryNpx, hm, hg]
  · simp [hn]
  · simp [hn]

theorem resolve_auto_order_w :
    resolveWithLog
        { isWindows := false, playwrightMode := none, playwrightBinVar := none,
          npxBinVar := none, nodeBinVar := none, globalOk := false, npxOk := true } =
      (.ok { mode := .npx,
             cmd := defaultNPX
               { isWindows := false, playwrightMode := none, playwrightBinVar := none,
                 npxBinVar := none, nodeBinVar := none, globalOk := false, npxOk := true },
             wrap := fun a => "playwright" :: a },
       [.global (defaultPlaywright
           { isWindows := false, playwrightMode := none, playwrightBinVar := none,
             npxBinVar := none, nodeBinVar := none, globalOk := false, npxOk := true }),
        .npx (defaultNPX
           { isWindows := false, playwrightMode := none, playwrightBinVar := none,
             npxBinVar := none, nodeBinVar := none, globalOk := false, npxOk := true })]) :=
  (resolve_auto_order _ rfl).2.1 rfl rfl

/-- `isDeviceType` (src/main.ts:144-146). -/
def isDeviceType (x : String) : Bool :=
  x == "pc" || x == "mobile"

/-- The TS type-guard narrowing `rawDevice is DeviceType` as a partial
conversion: the `DeviceType` a string denotes, if any. -/
def asDeviceType (x : String) : Option DeviceType :=
  if x == "pc" then some .pc
  else if x == "mobile" then some .mobile
  else none

/-- `devicePreset` (src/main.ts:148-151). -/
def devicePreset : DeviceType → String
  | .mobile => "iPhone 13"
  | .pc => "Desktop Chrome"

/-- `newId` (src/main.ts:139-142): the decimal rendering of `Date.now()`,
the current time in milliseconds passed in explicitly here. -/
def newId (nowMs : ℕ) : String :=
  toString nowMs

/-- The error message `run` throws on a non-zero exit
(src/main.ts:64-66). -/
def runFailMsg (cmd : String) (args : List String) : String :=
  "Command failed: " ++ cmd ++ " " ++ String.intercalate " " args

/-- Observable events of a flow, in program order: resolver probes, user
prompts, file writes, subprocess spawns, and the joint await of the spawned
viewer subprocesses. -/
inductive Event where
  | probeGlobal (bin : String) : Event
  | probeNpx (bin : String) : Event
  | promptUrl : Event
  | promptDevice : Event
  | promptConfirm : Event
  | promptFeedback : Event
  | promptPick : Event
  | promptCount (lo hi : ℕ) : Event
  | writeFile (path : String) : Event
  | spawn (cmd : String) (args : List String) : Event
  | joinAll : Event
deriving DecidableEq, Repr

/-- The events of the resolver's probe log. -/
def probeEvents : List Probe → List Event :=
  List.map fun p =>
    match p with
    | .global b => .probeGlobal b
    | .npx b => .probeNpx b

/-- Whether an event shows a user prompt. -/
def Event.isPrompt : Event → Bool
  | .promptUrl => true
  | .promptDevice => true
  | .promptConfirm => true
  | .promptFeedback => true
  | .promptPick => true
  | .promptCount _ _ => true
  | _ => false

/-- Whether an event spawns a subprocess. -/
def Event.isSpawn : Event → Bool
  | .spawn _ _ => true
  | _ => false

/-- The world `recordNewTest` runs in: environment and probe outcomes, the
history file, the two clock reads (`Date.now()` for the id,
`new Date().toISOString()` for `createdAt`), and the exit statuses of the
codegen subprocess and of the node trace-generation subprocess. -/
structure RecordWorld where
  sys : SysEnv
  history : FileState
  nowMs : ℕ
  nowIso : String
  codegenOk : Bool
  nodeOk : Bool

/-- The scripted user inputs of one `recordNewTest` iteration: the URL, the
device selection string, the trace-generation confirmation, and the feedback
text. -/
structure RecordInputs where
  url : String
  rawDevice : String
  genTrace : Bool
  feedback : String

/-- The load-then-push-then-save append step (src/main.ts:225-227): the
runtime array is the loaded raw JSON list with the new entry's JSON pushed
at the end. -/
def appendToHistory (fs : FileState) (e : HistoryEntry) : FileState :=
  saveHistory (loadHistory fs ++ [encodeEntry e])

/-- `recordNewTest` (src/main.ts:154-234) as a pure function of the world
and the scripted inputs, returning the outcome, the final state of the
history file, and the events in program order: resolve, prompt URL, prompt
device (rejecting values outside the guard), build the session paths from
the fresh id, spawn codegen, confirm, optionally write and run the
trace-generation helper, prompt for feedback, then append the new entry via
load-push-save. -/
def recordNewTest (w : RecordWorld) (inp : RecordInputs) :
    Except String Unit × FileState × List Event :=
  match resolveWithLog w.sys with
  | (.error e, log) => (.error e, w.history, probeEvents log)
  | (.ok pw, log) =>
    let evs := probeEvents log ++ [.promptUrl, .promptDevice]
    match asDeviceType inp.rawDevice with
    | none => (.error ("Invalid device selection: " ++ inp.rawDevice), w.history, evs)
    | some device =>
      let id := newId w.nowMs
      let sessionDir := SESSIONS_DIR ++ "/" ++ id
      let scriptPath := sessionDir ++ "/script.spec.ts"
      let tracePath := sessionDir ++ "/trace.zip"
      let preset := devicePreset device
      let codegenArgs := pw.wrap ["codegen", inp.url, "--output", scriptPath, "--device", preset]
      let evs := evs ++ [.spawn pw.cmd codegenArgs]
      if w.codegenOk then
        let evs := evs ++ [.promptConfirm]
        let entry : HistoryEntry :=
          { id := id, url := inp.url, device := device, createdAt := w.nowIso,
            feedback := inp.feedback, scriptPath := scriptPath, tracePath := tracePath }
        if inp.genTrace then
          let traceGenJs := sessionDir ++ "/tracegen.js"
          let evs := evs ++ [.writeFile traceGenJs, .spawn (defaultNode w.sys) [traceGenJs]]
          if w.nodeOk then
            (.ok (), appendToHistory w.history entry, evs ++ [.promptFeedback])
          else
            (.error (runFailMsg (defaultNode w.sys) [traceGenJs]), w.history, evs)
        else
          (.ok (), appendToHistory w.history entry, evs ++ [.promptFeedback])
      else
        (.error (runFailMsg pw.cmd codegenArgs), w.history, evs)

/-- The world `replayTest` runs in: environment and probe outcomes, the
history file, which paths exist on disk, and the exit status of the
trace-viewer subprocesses. -/
structure ReplayWorld where
  sys : SysEnv
  history : FileState
  fileExists : String → Bool
  showTraceOk : Bool

/-- `replayTest` (src/main.ts:237-280) as a pure function of the world, the
`Number` value of the typed session selection, and the accepted viewer
count: resolve, load history (returning silently when empty), prompt for a
pick, index into the entries with the clamp formula, read the chosen
entry's `tracePath` property (a `TypeError` when the selection or the
property is undefined), return silently when the trace file is missing,
then prompt for the count (bounds 1 and 10 passed to the prompt) and spawn
all viewer subprocesses before jointly awaiting them. -/
def replayTest (w : ReplayWorld) (pick : JsNum) (n : ℕ) :
    Except String Unit × List Event :=
  match resolveWithLog w.sys with
  | (.error e, log) => (.error e, probeEvents log)
  | (.ok pw, log) =>
    let entries := loadHistory w.history
    if entries.length = 0 then (.ok (), probeEvents log)
    else
      let evs := probeEvents log ++ [.promptPick]
      match selectEntry entries pick with
      | none => (.error "TypeError: cannot read properties of undefined", evs)
      | some chosen =>
        match jsField chosen "tracePath" with
        | some (.str tracePath) =>
          if w.fileExists tracePath then
            let viewerArgs := pw.wrap ["show-trace", tracePath]
            let evs := evs ++ [.promptCount 1 10]
              ++ List.replicate n (.spawn pw.cmd viewerArgs) ++ [.joinAll]
            (if w.showTraceOk then .ok ()
             else .error (runFailMsg pw.cmd viewerArgs), evs)
          else (.ok (), evs)
        | _ => (.error "TypeError: invalid trace path", evs)

theorem probeEvents_no_prompt (log : List Probe) :
    ∀ e ∈ probeEvents log, e.isPrompt = false := by
  intro e he
  simp only [probeEvents, List.mem_map] at he
  obtain ⟨p, _, rfl⟩ := he
  cases p <;> rfl

theorem probeEvents_no_spawn (log : List Probe) :
    ∀ e ∈ probeEvents log, e.isSpawn = false := by
  intro e he
  simp only [probeEvents, List.mem_map] at he
  obtain ⟨p, _, rfl⟩ := he
  cases p <;> rfl

theorem asDeviceType_eq_none (x : String) (h : isDeviceType x = false) :
    asDeviceType x = none := by
  unfold isDeviceType at h
  simp only [Bool.or_eq_false_iff, beq_eq_false_iff_ne] at h
  simp [asDeviceType, h.1, h.2]

theorem deviceToString_asDeviceType (x : String) (d : DeviceType)
    (h : asDeviceType x = some d) : deviceToString d = x := by
  unfold asDeviceType at h
  by_cases h1 : x == "pc"
  · rw [if_pos h1] at h
    cases h
    exact (beq_iff_eq.mp h1).symm
  · rw [if_neg h1] at h
    by_cases h2 : x == "mobile"
    · rw [if_pos h2] at h
      cases h
      exact (beq_iff_eq.mp h2).symm
    · rw [if_neg h2] at h
      cases h

/-- C5: with the resolution mode forced to "npx" and the launcher probe
failing, both the recorder flow and the replay flow fail with the
configuration error naming the missing `npx` dependency, and their event
traces contain no prompt: the failure occurs before any user prompt is
shown. -/
theorem forced_npx_fails_before_prompt (s : SysEnv)
    (hm : s.playwrightMode = some "npx") (hn : s.npxOk = false)
    (w : RecordWorld) (hw : w.sys = s) (inp : RecordInputs)
    (rw : ReplayWorld) (hrw : rw.sys = s) (pick : JsNum) (n : ℕ) :
    (recordNewTest w inp).1 =
      .error "PLAYWRIGHT_MODE=npx but `npx` not found on PATH." ∧
    (∀ e ∈ (recordNewTest w inp).2.2, e.isPrompt = false) ∧
    (replayTest rw pick n).1 =
      .error "PLAYWRIGHT_MODE=npx but `npx` not found on PATH." ∧
    (∀ e ∈ (replayTest rw pick n).2, e.isPrompt = false) := by
  have hres : resolveWithLog s =
      (.error "PLAYWRIGHT_MODE=npx but `npx` not found on PATH.",
       [.npx (defaultNPX s)]) := by
    unfold resolveWithLog
    rw [hm]
    simp [tryNpx, hn]
  refine ⟨?_, ?_, ?_, ?_⟩
  · simp [recordNewTest, hw, hres]
  · simp only [recordNewTest, hw, hres]
    exact probeEvents_no_prompt _
  · simp [replayTest, hrw, hres]
  · simp only [replayTest, hrw, hres]
    exact probeEvents_no_prompt _

/-- C6: once the resolver has succeeded, a device selection outside
{"pc", "mobile"} makes the recorder flow fail with the input error naming
the selection, and its event trace contains no subprocess spawn: the
rejection happens before any subprocess is launched. -/
theorem invalid_device_rejected (w : RecordWorld) (inp : RecordInputs)
    (pw : PwInvoker) (log : List Probe)
    (hres : resolveWithLog w.sys = (.ok pw, log))
    (hdev : isDeviceType inp.rawDevice = false) :
    (recordNewTest w inp).1 = .error ("Invalid device selection: " ++ inp.rawDevice) ∧
    ∀ e ∈ (recordNewTest w inp).2.2, e.isSpawn = false := by
  have hnone := asDeviceType_eq_none inp.rawDevice hdev
  constructor
  · simp [recordNewTest, hres, hnone]
  · simp only [recordNewTest, hres, hnone]
    intro e he
    simp only [List.mem_append, List.mem_cons, List.not_mem_nil, or_false] at he
    rcases he with he | he | he
    · exact probeEvents_no_spawn log e he
    · subst he; rfl
    · subst he; rfl

theorem jsField_encodeEntry_tracePath (e : HistoryEntry) :
    jsField (encodeEntry e) "tracePath" = some (.str e.tracePath) := rfl

/-- C7: in the replay flow, the viewer-count prompt is issued with the
bounds 1 and 10, and for every accepted count n (1 ≤ n ≤ 10) the event
trace ends with exactly n spawns of the trace-viewer command on the chosen
entry's trace path followed by the single joint await: all n invocations
are issued before any of them is joined, and the spawns in the whole trace
number exactly n. -/
theorem replay_spawn_fanout (rw : ReplayWorld) (pw : PwInvoker) (log : List Probe)
    (hres : resolveWithLog rw.sys = (.ok pw, log))
    (H : List HistoryEntry) (hh : rw.history = saveHistory (H.map encodeEntry))
    (hne : H ≠ []) (pick : JsNum) (e : HistoryEntry)
    (hsel : selectEntry (H.map encodeEntry) pick = some (encodeEntry e))
    (hex : rw.fileExists e.tracePath = true)
    (n : ℕ) (_hn1 : 1 ≤ n) (_hn10 : n ≤ 10) :
    (replayTest rw pick n).2 =
      probeEvents log ++ [.promptPick, .promptCount 1 10]
        ++ List.replicate n (.spawn pw.cmd (pw.wrap ["show-trace", e.tracePath]))
        ++ [.joinAll] ∧
    ((replayTest rw pick n).2.filter Event.isSpawn).length = n := by
  have hload : loadHistory rw.history = H.map encodeEntry := by
    rw [hh]
    rfl
  have htrace : (replayTest rw pick n).2 =
      probeEvents log ++ [.promptPick, .promptCount 1 10]
        ++ List.replicate n (.spawn pw.cmd (pw.wrap ["show-trace", e.tracePath]))
        ++ [.joinAll] := by
    simp [replayTest, hres, hload, hne, hsel, jsField_encodeEntry_tracePath, hex,
          List.append_assoc]
  refine ⟨htrace, ?_⟩
  rw [htrace]
  have h1 : (probeEvents log).filter Event.isSpawn = [] :=
    List.filter_eq_nil_iff.mpr (by
      intro a ha
      simp [probeEvents_no_spawn log a ha])
  have h2 : (List.replicate n (Event.spawn pw.cmd (pw.wrap ["show-trace", e.tracePath]))).filter
      Event.isSpawn
      = List.replicate n (Event.spawn pw.cmd (pw.wrap ["show-trace", e.tracePath])) :=
    List.filter_eq_self.mpr (by
      intro a ha
      rw [List.eq_of_mem_replicate ha]
      rfl)
  simp [List.filter_append, h1, h2, Event.isSpawn]

/-- C8: whenever the recorder flow completes successfully, the history file
it persists is exactly the previously loaded history followed by the one
new entry (built from the session inputs and clock): earlier entries are
unchanged and keep their order, and the new entry is last. -/
theorem record_appends_history (w : RecordWorld) (inp : RecordInputs)
    (h : (recordNewTest w inp).1 = .ok ()) :
    ∃ e : HistoryEntry,
      e.id = newId w.nowMs ∧ e.url = inp.url ∧
      deviceToString e.device = inp.rawDevice ∧
      e.createdAt = w.nowIso ∧ e.feedback = inp.feedback ∧
      (recordNewTest w inp).2.1 =
        saveHistory (loadHistory w.history ++ [encodeEntry e]) := by
  rcases hres : resolveWithLog w.sys with ⟨r, log⟩
  cases r with
  | error msg => simp [recordNewTest, hres] at h
  | ok pw =>
    rcases hdev : asDeviceType inp.rawDevice with _ | device
    · simp [recordNewTest, hres, hdev] at h
    · by_cases hc : w.codegenOk
      · have hds := deviceToString_asDeviceType inp.rawDevice device hdev
        by_cases hg : inp.genTrace
        · by_cases hnode : w.nodeOk
          · exact ⟨{ id := newId w.nowMs, url := inp.url, device := device,
                     createdAt := w.nowIso, feedback := inp.feedback,
                     scriptPath := SESSIONS_DIR ++ "/" ++ newId w.nowMs ++ "/script.spec.ts",
                     tracePath := SESSIONS_DIR ++ "/" ++ newId w.nowMs ++ "/trace.zip" },
              rfl, rfl, hds, rfl, rfl,
              by simp [recordNewTest, hres, hdev, hc, hg, hnode, appendToHistory]⟩
          · simp [recordNewTest, hres, hdev, hc, hg, hnode] at h
        · exact ⟨{ id := newId w.nowMs, url := inp.url, device := device,
                   createdAt := w.nowIso, feedback := inp.feedback,
                   scriptPath := SESSIONS_DIR ++ "/" ++ newId w.nowMs ++ "/script.spec.ts",
                   tracePath := SESSIONS_DIR ++ "/" ++ newId w.nowMs ++ "/trace.zip" },
            rfl, rfl, hds, rfl, rfl,
            by simp [recordNewTest, hres, hdev, hc, hg, appendToHistory]⟩
      · simp [recordNewTest, hres, hdev, hc] at h

/-- C10: whenever the recorder flow completes successfully, the entry it
appends has its script and trace paths determined by its id: they are
`tests/sessions/<id>/script.spec.ts` and `tests/sessions/<id>/trace.zip`,
both inside the session directory named by the id (itself the decimal
millisecond clock value). -/
theorem session_paths_deterministic (w : RecordWorld) (inp : RecordInputs)
    (h : (recordNewTest w inp).1 = .ok ()) :
    ∃ e : HistoryEntry,
      (recordNewTest w inp).2.1 =
        saveHistory (loadHistory w.history ++ [encodeEntry e]) ∧
      e.id = newId w.nowMs ∧
      e.scriptPath = SESSIONS_DIR ++ "/" ++ e.id ++ "/script.spec.ts" ∧
      e.tracePath = SESSIONS_DIR ++ "/" ++ e.id ++ "/trace.zip" := by
  rcases hres : resolveWithLog w.sys with ⟨r, log⟩
  cases r with
  | error msg => simp [recordNewTest, hres] at h
  | ok pw =>
    rcases hdev : asDeviceType inp.rawDevice with _ | device
    · simp [recordNewTest, hres, hdev] at h
    · by_cases hc : w.codegenOk
      · by_cases hg : inp.genTrace
        · by_cases hnode : w.nodeOk
          · exact ⟨{ id := newId w.nowMs, url := inp.url, device := device,
                     createdAt := w.nowIso, feedback := inp.feedback,
                     scriptPath := SESSIONS_DIR ++ "/" ++ newId w.nowMs ++ "/script.spec.ts",
                     tracePath := SESSIONS_DIR ++ "/" ++ newId w.nowMs ++ "/trace.zip" },
              by simp [recordNewTest, hres, hdev, hc, hg, hnode, appendToHistory],
              rfl, rfl, rfl⟩
          · simp [recordNewTest, hres, hdev, hc, hg, hnode] at h
        · exact ⟨{ id := newId w.nowMs, url := inp.url, device := device,
                   createdAt := w.nowIso, feedback := inp.feedback,
                   scriptPath := SESSIONS_DIR ++ "/" ++ newId w.nowMs ++ "/script.spec.ts",
                   tracePath := SESSIONS_DIR ++ "/" ++ newId w.nowMs ++ "/trace.zip" },
            by simp [recordNewTest, hres, hdev, hc, hg, appendToHistory],
            rfl, rfl, rfl⟩
      · simp [recordNewTest, hres, hdev, hc] at h

/-- A Unix-like environment with the mode override unset, the direct
binary available and the launcher not probed successfully. -/
def sampleSysOk : SysEnv :=
  { isWindows := false, playwrightMode := none, playwrightBinVar := none,
    npxBinVar := none, nodeBinVar := none, globalOk := true, npxOk := false }

/-- A Unix-like environment with the mode override forced to "npx" and the
launcher probe failing. -/
def sampleSysNpxMissing : SysEnv :=
  { isWindows := false, playwrightMode := some "npx", playwrightBinVar := none,
    npxBinVar := none, nodeBinVar := none, globalOk := true, npxOk := false }

/-- A sample recorded session entry. -/
def sampleEntry : HistoryEntry :=
  { id := "1", url := "https://example.com", device := .pc,
    createdAt := "2025-01-01T00:00:00.000Z", feedback := "",
    scriptPath := "tests/sessions/1/script.spec.ts",
    tracePath := "tests/sessions/1/trace.zip" }

/-- A recorder world in which every step succeeds. -/
def sampleRecordWorld : RecordWorld :=
  { sys := sampleSysOk, history := .absent, nowMs := 5,
    nowIso := "2025-01-02T00:00:00.000Z", codegenOk := true, nodeOk := true }

/-- A recorder world with the resolver forced to the missing launcher. -/
def sampleRecordWorldNpx : RecordWorld :=
  { sampleRecordWorld with sys := sampleSysNpxMissing }

/-- Scripted recorder inputs with a valid device selection. -/
def sampleRecordInputs : RecordInputs :=
  { url := "https://example.com", rawDevice := "pc", genTrace := false,
    feedback := "looks good" }

/-- Scripted recorder inputs with an invalid device selection. -/
def sampleBadDeviceInputs : RecordInputs :=
  { url := "https://example.com", rawDevice := "tablet", genTrace := false,
    feedback := "" }

/-- A replay world holding one recorded session whose trace file exists. -/
def sampleReplayWorld : ReplayWorld :=
  { sys := sampleSysOk, history := saveHistory ([sampleEntry].map encodeEntry),
    fileExists := fun _ => true, showTraceOk := true }

/-- A replay world with the resolver forced to the missing launcher. -/
def sampleReplayWorldNpx : ReplayWorld :=
  { sampleReplayWorld with sys := sampleSysNpxMissing }

theorem forced_npx_fails_before_prompt_w :
    (recordNewTest sampleRecordWorldNpx sampleRecordInputs).1 =
      .error "PLAYWRIGHT_MODE=npx but `npx` not found on PATH." ∧
    (∀ e ∈ (recordNewTest sampleRecordWorldNpx sampleRecordInputs).2.2,
      e.isPrompt = false) ∧
    (replayTest sampleReplayWorldNpx (.num 1) 1).1 =
      .error "PLAYWRIGHT_MODE=npx but `npx` not found on PATH." ∧
    (∀ e ∈ (replayTest sampleReplayWorldNpx (.num 1) 1).2,
      e.isPrompt = false) :=
  forced_npx_fails_before_prompt sampleSysNpxMissing rfl rfl
    sampleRecordWorldNpx rfl sampleRecordInputs
    sampleReplayWorldNpx rfl (.num 1) 1

theorem invalid_device_rejected_w :
    (recordNewTest sampleRecordWorld sampleBadDeviceInputs).1 =
      .error ("Invalid device selection: " ++ sampleBadDeviceInputs.rawDevice) ∧
    ∀ e ∈ (recordNewTest sampleRecordWorld sampleBadDeviceInputs).2.2,
      e.isSpawn = false :=
  invalid_device_rejected sampleRecordWorld sampleBadDeviceInputs
    { mode := .global, cmd := "playwright", wrap := fun a => a }
    [.global "playwright"] rfl rfl

theorem replay_spawn_fanout_w :
    (replayTest sampleReplayWorld (.num 1) 3).2 =
      probeEvents [.global "playwright"] ++ [.promptPick, .promptCount 1 10]
        ++ List.replicate 3
            (.spawn "playwright" ((fun a => a) ["show-trace", sampleEntry.tracePath]))
        ++ [.joinAll] ∧
    ((replayTest sampleReplayWorld (.num 1) 3).2.filter Event.isSpawn).length = 3 :=
  replay_spawn_fanout sampleReplayWorld
    { mode := .global, cmd := "playwright", wrap := fun a => a }
    [.global "playwright"] rfl [sampleEntry] rfl (by simp) (.num 1) sampleEntry
    (by simp [selectEntry, pickIndex, jsMin, jsMax, jsSub1, jsIndex])
    rfl 3 (by simp) (by simp)

theorem record_appends_history_w :
    ∃ e : HistoryEntry,
      e.id = newId sampleRecordWorld.nowMs ∧ e.url = sampleRecordInputs.url ∧
      deviceToString e.device = sampleRecordInputs.rawDevice ∧
      e.createdAt = sampleRecordWorld.nowIso ∧
      e.feedback = sampleRecordInputs.feedback ∧
      (recordNewTest sampleRecordWorld sampleRecordInputs).2.1 =
        saveHistory (loadHistory sampleRecordWorld.history ++ [encodeEntry e]) :=
  record_appends_history sampleRecordWorld sampleRecordInputs rfl

theorem session_paths_deterministic_w :
    ∃ e : HistoryEntry,
      (recordNewTest sampleRecordWorld sampleRecordInputs).2.1 =
        saveHistory (loadHistory sampleRecordWorld.history ++ [encodeEntry e]) ∧
      e.id = newId sampleRecordWorld.nowMs ∧
      e.scriptPath = SESSIONS_DIR ++ "/" ++ e.id ++ "/script.spec.ts" ∧
      e.tracePath = SESSIONS_DIR ++ "/" ++ e.id ++ "/trace.zip" :=
  session_paths_deterministic sampleRecordWorld sampleRecordInputs rfl

end GTR
